import Mathlib

/-!
Shallow embedding of github.com/adrianosela/refresh (Go).

Time model: Go `time.Time` and `time.Duration` are modelled as integer
nanoseconds (`Int`).  Go `Duration.Seconds()` returns a float64; we model
the float arithmetic of the strategies exactly over `ℚ` (the only
discretisation the code performs is the float64 → int64 truncation in
`time.Duration(x)`, modelled by `truncQ`).
-/

/-- Go `time.Time` as integer nanoseconds since the epoch. -/
abbrev GoTime := Int

/-- Go `time.Duration` as integer nanoseconds. -/
abbrev GoDuration := Int

/-- Go `time.Second` (nanoseconds). -/
def goSecond : GoDuration := 1000000000

/-- Model of Go `Duration.Seconds()`: the duration in seconds, exactly. -/
def durSeconds (d : GoDuration) : ℚ := (d : ℚ) / 1000000000

/-- Model of Go's float64 → int64 conversion `time.Duration(x)`:
truncation toward zero. -/
def truncQ (q : ℚ) : Int := if q < 0 then ⌈q⌉ else ⌊q⌋

/-- `Refreshable` (source `part_000`): a value with issuance and expiry times. -/
structure Refreshable (T : Type) where
  value : T
  issuedAt : GoTime
  expiresAt : GoTime
deriving DecidableEq

/-- `defaultRefreshStrategyFunc` (source `part_000` lines 273-290): refresh
now when expired or when more than two thirds of the lifetime has elapsed,
otherwise at the two-thirds-of-lifetime point (whole seconds, truncated). -/
def defaultRefreshStrategyFunc {T : Type} (now : GoTime) (refreshable : Refreshable T) : GoTime :=
  -- `time.Now().After(refreshable.ExpiresAt)`: now > expiresAt
  if refreshable.expiresAt < now then now
  else
    let lifetimeSoFarSeconds : ℚ := durSeconds (now - refreshable.issuedAt)
    let lifetimeTotalSeconds : ℚ := durSeconds (refreshable.expiresAt - refreshable.issuedAt)
    let twoThirdsOfTotalLifetimeSeconds : ℚ := lifetimeTotalSeconds * 2 / 3
    if twoThirdsOfTotalLifetimeSeconds < lifetimeSoFarSeconds then now
    else refreshable.issuedAt + truncQ twoThirdsOfTotalLifetimeSeconds * goSecond

/-- `maxTime` (source `strategies/scheduled.go`): `time.Unix(1<<63-1, 0)`. -/
def maxTime : GoTime := (2 ^ 63 - 1) * 1000000000

/-- The loop body of `strategyScheduled.GetRefreshAt`: first configured
time strictly after `now`, else `maxTime`. -/
def scheduledFirstFuture : List GoTime → GoTime → GoTime
  | [], _ => maxTime
  | t :: rest, now => if now < t then t else scheduledFirstFuture rest now

/-- `strategyScheduled.GetRefreshAt` (source `strategies/scheduled.go`
lines 25-34).  The refreshable argument is unused by the source. -/
def scheduledGetRefreshAt {T : Type} (times : List GoTime) (now : GoTime)
    (_refreshable : Refreshable T) : GoTime :=
  scheduledFirstFuture times now

/-- `strategyStaticTime.GetRefreshAt` (source `part_001` lines 20-22):
always the configured instant, ignoring the refreshable. -/
def staticTimeGetRefreshAt {T : Type} (t : GoTime) (_refreshable : Refreshable T) : GoTime :=
  t

/-- `strategyStaticLifetimeLeft.GetRefreshAt` (source `strategies`, second
section of `scheduled.go`): a fixed duration before expiry, floored at now. -/
def staticLifetimeLeftGetRefreshAt {T : Type} (lifetimeLeft : GoDuration) (now : GoTime)
    (refreshable : Refreshable T) : GoTime :=
  let refreshIfAfterTime := refreshable.expiresAt - lifetimeLeft
  if now < refreshIfAfterTime then refreshIfAfterTime else now

/-- `strategyStaticLifetimeSpent.GetRefreshAt` (source `strategies`, third
section of `scheduled.go`): a fixed duration after issuance, floored at now. -/
def staticLifetimeSpentGetRefreshAt {T : Type} (lifetimeSpent : GoDuration) (now : GoTime)
    (refreshable : Refreshable T) : GoTime :=
  let refreshIfAfterTime := refreshable.issuedAt + lifetimeSpent
  if now < refreshIfAfterTime then refreshIfAfterTime else now

/-- `clamp` (source `storage.go` second section, lines 73-81). -/
def clamp (value lowerBound upperBound : ℚ) : ℚ :=
  if value < lowerBound then lowerBound
  else if upperBound < value then upperBound
  else value

/-- The `strategyRandomWithinLifetimeWindow` struct fields. -/
structure RandomWindowStrategy where
  min : ℚ
  max : ℚ
deriving DecidableEq

/-- `NewRandomWithinLifetimeWindow` (source `storage.go` second section,
lines 64-71): clamp both bounds into [0.01, 0.99], then force min ≤ max. -/
def NewRandomWithinLifetimeWindow (mn mx : ℚ) : RandomWindowStrategy :=
  let mn := clamp mn (1/100) (99/100)
  let mx := clamp mx (1/100) (99/100)
  if mx < mn then ⟨mx, mx⟩ else ⟨mn, mx⟩

/-- `strategyRandomWithinLifetimeWindow.GetRefreshAt` (source `storage.go`
second section, lines 84-105).  `rnd` models the result of
`rand.Float64()`, a value in [0, 1). -/
def randomWindowGetRefreshAt {T : Type} (s : RandomWindowStrategy) (rnd : ℚ) (now : GoTime)
    (refreshable : Refreshable T) : GoTime :=
  if refreshable.expiresAt < now then now
  else
    let lifetimeSoFarSeconds : ℚ := durSeconds (now - refreshable.issuedAt)
    let lifetimeTotalSeconds : ℚ := durSeconds (refreshable.expiresAt - refreshable.issuedAt)
    let randomFactorInWindow : ℚ := s.min + rnd * (s.max - s.min)
    let desiredElapsedLifetimeSeconds : ℚ := lifetimeTotalSeconds * randomFactorInWindow
    if desiredElapsedLifetimeSeconds < lifetimeSoFarSeconds then now
    else refreshable.issuedAt + truncQ desiredElapsedLifetimeSeconds * goSecond

/-! ## The refresher core (source `part_000`, first section) -/

/-- The mutable state of a `refresher`: `current` and `refreshAt`
(source `part_000` lines 94-99). -/
structure RefresherState (T : Type) where
  current : Option (Refreshable T)
  refreshAt : GoTime
deriving DecidableEq

/-- One callback invocation.  The refresher owns six event-handler
callbacks (source `part_000` lines 113-119); an emitted `CallbackEvent`
models one call to the corresponding handler. -/
inductive CallbackEvent (T E : Type) where
  | refreshSuccess (v : Refreshable T)
  | refreshFailure (e : E)
  | storageReadSuccess (v : Refreshable T)
  | storageWriteSuccess (v : Refreshable T)
  | storageReadFailure (e : E)
  | storageWriteFailure (e : E)
deriving DecidableEq

/-- The default retry delay, `time.Minute * 15` (source `part_000` line 132). -/
def defaultRetryDelay : GoDuration := 15 * 60 * 1000000000

/-- `refresher.refresh` (source `part_000` lines 201-208): on success,
atomically install the new value and the strategy's time for it; on error,
leave the state untouched and return the error. -/
def refresh {T E : Type} (st : RefresherState T) (strategy : Refreshable T → GoTime)
    (refreshResult : Except E (Refreshable T)) : RefresherState T × Option E :=
  match refreshResult with
  | Except.error e => (st, some e)
  | Except.ok newValue => (⟨some newValue, strategy newValue⟩, none)

/-- `refresher.store` (source `part_000` lines 211-219): no-op without
storage; otherwise invoke `Put` with the value and report a failure via
the storage-write-failure callback.  Returns the list of `Put` invocations
(by argument) and the callback events fired. -/
def store {T E : Type} (storageConfigured : Bool) (putError : Option E)
    (refreshable : Refreshable T) :
    List (Refreshable T) × List (CallbackEvent T E) :=
  if storageConfigured then
    match putError with
    | some e => ([refreshable], [CallbackEvent.storageWriteFailure e])
    | none => ([refreshable], [])
  else ([], [])

/-- Outcome of the one-time initialization phase of `refresher.start`
(source `part_000` lines 226-249): final state, the value published on
the `initializationResult` channel (`none` = success), the callback
events fired, and the storage `Put` invocations made. -/
structure InitOutcome (T E : Type) where
  state : RefresherState T
  published : Option E
  events : List (CallbackEvent T E)
  putCalls : List (Refreshable T)
deriving DecidableEq

/-- The initialization phase of `refresher.start` (source `part_000`
lines 226-249).  `initialRefreshAt` is the `refreshAt` set at construction
(line 128); `current` starts absent (line 127).  `storageResult` is `none`
when no storage is configured, otherwise the result of `storage.Get`.
`refreshResult` is the result of `refreshFunc` if it gets invoked. -/
def initPhase {T E : Type} (initialRefreshAt : GoTime)
    (storageResult : Option (Except E (Refreshable T)))
    (strategy : Refreshable T → GoTime) (now : GoTime)
    (refreshResult : Except E (Refreshable T)) : InitOutcome T E :=
  -- fallthrough: no value adopted from storage, so acquire a fresh one and
  -- publish the outcome of `refresh` on the channel.
  let fallthrough : List (CallbackEvent T E) → InitOutcome T E := fun evs =>
    match refresh (⟨none, initialRefreshAt⟩ : RefresherState T) strategy refreshResult with
    | (st2, err) => ⟨st2, err, evs, []⟩
  match storageResult with
  | none => fallthrough []
  | some (Except.error e) => fallthrough [CallbackEvent.storageReadFailure e]
  | some (Except.ok valueFromStorage) =>
      let refreshAt := strategy valueFromStorage
      -- `time.Now().Before(refreshAt)`: the loaded value is still fresh
      if now < refreshAt then ⟨⟨some valueFromStorage, refreshAt⟩, none, [], []⟩
      else fallthrough []

/-- Outcome of one steady-state timer fire in `refresher.start` (source
`part_000` lines 258-268): new state, the duration the timer is reset to,
the callback events fired, and the storage `Put` invocations made. -/
structure SteadyOutcome (T E : Type) where
  state : RefresherState T
  timerReset : GoDuration
  events : List (CallbackEvent T E)
  putCalls : List (Refreshable T)
deriving DecidableEq

/-- One steady-state timer fire (source `part_000` lines 258-268): on
refresh failure, reset the timer to the retry delay and fire the
refresh-failure callback; on success, install the new state via `refresh`,
reset the timer to `time.Until` the new refresh time, fire the
refresh-success callback, and attempt to `store` the new value. -/
def steadyStep {T E : Type} (st : RefresherState T) (strategy : Refreshable T → GoTime)
    (retryDelay : GoDuration) (now : GoTime)
    (refreshResult : Except E (Refreshable T))
    (storageConfigured : Bool) (putError : Option E) : SteadyOutcome T E :=
  match refreshResult with
  | Except.error e => ⟨st, retryDelay, [CallbackEvent.refreshFailure e], []⟩
  | Except.ok newValue =>
      let st' := (refresh (E := E) st strategy (Except.ok newValue)).1
      match store storageConfigured putError newValue with
      | (puts, putEvents) =>
          ⟨st', st'.refreshAt - now, CallbackEvent.refreshSuccess newValue :: putEvents, puts⟩

/-! ## `WaitForInitialValue` (source `part_000` lines 157-171) -/

/-- Which arm of the `select` in `WaitForInitialValue` fires first: the
`time.After(timeout)` timer, or a receive from `initializationResult`. -/
inductive ChannelEvent (E : Type) where
  | timerFired
  | received (v : Option E)
deriving DecidableEq

/-- The result of `WaitForInitialValue`: nil, the timeout error, or the
wrapped acquisition error. -/
inductive WaitResult (E : Type) where
  | success
  | timedOut
  | initFailed (e : E)
deriving DecidableEq

/-- `refresher.WaitForInitialValue` (source `part_000` lines 157-171):
return success immediately when a current value exists, otherwise race the
timeout timer against the initialization channel. -/
def WaitForInitialValue {T E : Type} (current : Option (Refreshable T))
    (ev : ChannelEvent E) : WaitResult E :=
  if current.isSome then WaitResult.success
  else
    match ev with
    | ChannelEvent.timerFired => WaitResult.timedOut
    | ChannelEvent.received none => WaitResult.success
    | ChannelEvent.received (some e) => WaitResult.initFailed e

/-- Go channel semantics of `initializationResult` (unbuffered, written
once with `sent`, then closed, source `part_000` lines 239/246/249): the
receiver that wins the single send observes `sent`; every receive after
the close yields the zero value `nil` (`none`).  `k` is the receiver's
position in the order of receives. -/
def initChannelReceive {E : Type} (sent : Option E) (k : Nat) : Option E :=
  match k with
  | 0 => sent
  | _ + 1 => none

/-- Outcome observed by the `k`-th concurrent waiter blocked in
`WaitForInitialValue` (no current value yet) when the initialization
attempt publishes `sent`. -/
def waiterOutcome (T : Type) {E : Type} (sent : Option E) (k : Nat) : WaitResult E :=
  WaitForInitialValue (T := T) (none : Option (Refreshable T))
    (ChannelEvent.received (initChannelReceive sent k))

/-! ## Helper lemmas -/

lemma defaultRefreshStrategyFunc_eq {T : Type} (now : GoTime) (r : Refreshable T) :
    defaultRefreshStrategyFunc now r =
      if r.expiresAt < now then now
      else if durSeconds (r.expiresAt - r.issuedAt) * 2 / 3 < durSeconds (now - r.issuedAt) then now
      else r.issuedAt + truncQ (durSeconds (r.expiresAt - r.issuedAt) * 2 / 3) * goSecond := rfl

lemma randomWindowGetRefreshAt_eq {T : Type} (s : RandomWindowStrategy) (rnd : ℚ)
    (now : GoTime) (r : Refreshable T) :
    randomWindowGetRefreshAt s rnd now r =
      if r.expiresAt < now then now
      else if durSeconds (r.expiresAt - r.issuedAt) * (s.min + rnd * (s.max - s.min)) <
          durSeconds (now - r.issuedAt) then now
      else r.issuedAt +
        truncQ (durSeconds (r.expiresAt - r.issuedAt) * (s.min + rnd * (s.max - s.min))) * goSecond := rfl

lemma truncQ_eq_floor (q : ℚ) (h : 0 ≤ q) : truncQ q = ⌊q⌋ := by
  unfold truncQ
  rw [if_neg (not_lt.2 h)]

/-- **C1.** If the caller-supplied refresh function returns an error during a
steady-state refresh, the refresher's state is unchanged (so `GetCurrent` and
`GetNextRefreshTime` return the pre-failure value and schedule), the timer is
rearmed to the configured retry delay, the outcome does not depend on the
strategy (the strategy is not consulted), and the default retry delay is
15 minutes. -/
theorem c1_failed_refresh_preserves_state {T E : Type} (st : RefresherState T)
    (strategy strategyB : Refreshable T → GoTime) (retryDelay : GoDuration)
    (now : GoTime) (e : E) (storageConfigured : Bool) (putError : Option E) :
    (steadyStep st strategy retryDelay now (Except.error e) storageConfigured putError).state = st ∧
    (steadyStep st strategy retryDelay now (Except.error e) storageConfigured putError).timerReset = retryDelay ∧
    steadyStep st strategy retryDelay now (Except.error e) storageConfigured putError =
      steadyStep st strategyB retryDelay now (Except.error e) storageConfigured putError ∧
    defaultRetryDelay = 15 * 60 * goSecond :=
  ⟨rfl, rfl, rfl, rfl⟩

/-- **C3.** `WaitForInitialValue` returns success whenever a current value is
already present (for any race outcome), returns the timeout error when the
timer fires first, and returns the wrapped acquisition error (resp. success)
when the initialization signal fires first with an error (resp. success). -/
theorem c3_wait_for_initial_value {T E : Type} (current : Option (Refreshable T))
    (ev : ChannelEvent E) (e : E) :
    (current.isSome = true → WaitForInitialValue current ev = WaitResult.success) ∧
    (WaitForInitialValue (none : Option (Refreshable T)) (ChannelEvent.timerFired : ChannelEvent E) =
      WaitResult.timedOut) ∧
    (WaitForInitialValue (none : Option (Refreshable T)) (ChannelEvent.received (some e)) =
      WaitResult.initFailed e) ∧
    (WaitForInitialValue (none : Option (Refreshable T)) (ChannelEvent.received (none : Option E)) =
      WaitResult.success) := by
  refine ⟨fun h => ?_, rfl, rfl, rfl⟩
  simp [WaitForInitialValue, h]

/-- Witness for C3 at a concrete input: a present value short-circuits even
when the timeout timer fires first. -/
theorem c3_wait_for_initial_value_witness :
    (some (⟨(), 0, 0⟩ : Refreshable Unit)).isSome = true ∧
    WaitForInitialValue (some (⟨(), 0, 0⟩ : Refreshable Unit))
      (ChannelEvent.timerFired : ChannelEvent Unit) = WaitResult.success :=
  ⟨rfl, (c3_wait_for_initial_value (some ⟨(), 0, 0⟩) ChannelEvent.timerFired ()).1 rfl⟩

/-- **C5.** During initialization with storage configured and a successful
load: if `now` is before the strategy's recomputed refresh time, the loaded
value is adopted and success is published (independently of the refresh
function); otherwise the loaded value is discarded and the phase behaves
exactly as if no storage were configured, publishing the refresh function's
outcome. -/
theorem c5_init_storage_adoption {T E : Type} (initialRefreshAt now : GoTime)
    (strategy : Refreshable T → GoTime) (v : Refreshable T)
    (refreshResult : Except E (Refreshable T)) :
    (now < strategy v →
      initPhase initialRefreshAt (some (Except.ok v)) strategy now refreshResult =
        ⟨⟨some v, strategy v⟩, none, [], []⟩) ∧
    (¬ now < strategy v →
      initPhase initialRefreshAt (some (Except.ok v)) strategy now refreshResult =
        initPhase initialRefreshAt none strategy now refreshResult ∧
      (initPhase initialRefreshAt (some (Except.ok v)) strategy now refreshResult).published =
        (refresh (⟨none, initialRefreshAt⟩ : RefresherState T) strategy refreshResult).2) := by
  constructor
  · intro h
    simp [initPhase, h]
  · intro h
    cases refreshResult <;> simp [initPhase, refresh, h]

/-- Witness for C5 at a concrete input: a still-fresh stored value is adopted
and success is published even though the refresh function would fail. -/
theorem c5_init_storage_adoption_witness :
    ((0 : GoTime) < 1) ∧
    initPhase (T := Unit) (E := Unit) 0 (some (Except.ok ⟨(), 0, 10⟩)) (fun _ => 1) 0
        (Except.error ()) =
      ⟨⟨some ⟨(), 0, 10⟩, 1⟩, none, [], []⟩ :=
  ⟨by norm_num,
   (c5_init_storage_adoption 0 0 (fun _ => 1) ⟨(), 0, 10⟩ (Except.error ())).1 (by norm_num)⟩

/-- **C6 counterexample.** With the unbuffered write-once-then-closed channel,
when the first acquisition fails, a second concurrent waiter receives the zero
value from the closed channel and returns success — not the wrapped
acquisition error that the claim demands of every waiter. -/
theorem c6_counterexample :
    waiterOutcome Unit (some (0 : ℕ)) 0 = WaitResult.initFailed 0 ∧
    waiterOutcome Unit (some (0 : ℕ)) 1 = WaitResult.success ∧
    WaitResult.success ≠ WaitResult.initFailed (0 : ℕ) := by
  refine ⟨rfl, rfl, ?_⟩
  simp

/-- **C6 (amended).** All concurrent waiters observe success when the first
acquisition succeeds; when it fails, the single waiter that receives the
channel's write observes the wrapped acquisition error, while every later
receiver observes the closed channel's zero value and returns success. -/
theorem c6_amended_waiters {E : Type} (e : E) (k : Nat) :
    waiterOutcome Unit (none : Option E) k = WaitResult.success ∧
    waiterOutcome Unit (some e) 0 = WaitResult.initFailed e ∧
    waiterOutcome Unit (some e) (k + 1) = WaitResult.success := by
  refine ⟨?_, rfl, rfl⟩
  cases k <;> rfl

/-- **C9.** Neither the `onStorageReadSuccess` nor the `onStorageWriteSuccess`
callback is ever fired: no execution of the initialization phase or of a
steady-state step emits either event. -/
theorem c9_storage_success_callbacks_never_fire {T E : Type} (initialRefreshAt now : GoTime)
    (storageResult : Option (Except E (Refreshable T))) (strategy : Refreshable T → GoTime)
    (refreshResult : Except E (Refreshable T)) (st : RefresherState T)
    (retryDelay : GoDuration) (storageConfigured : Bool) (putError : Option E)
    (v : Refreshable T) :
    CallbackEvent.storageReadSuccess v ∉
      (initPhase initialRefreshAt storageResult strategy now refreshResult).events ∧
    CallbackEvent.storageWriteSuccess v ∉
      (initPhase initialRefreshAt storageResult strategy now refreshResult).events ∧
    CallbackEvent.storageReadSuccess v ∉
      (steadyStep st strategy retryDelay now refreshResult storageConfigured putError).events ∧
    CallbackEvent.storageWriteSuccess v ∉
      (steadyStep st strategy retryDelay now refreshResult storageConfigured putError).events := by
  rcases storageResult with _ | sr
  all_goals rcases refreshResult with e2 | v2
  all_goals try rcases sr with e1 | v1
  all_goals cases storageConfigured
  all_goals rcases putError with _ | e3
  all_goals simp [initPhase, steadyStep, refresh, store]
  all_goals split_ifs
  all_goals simp

/-- **C10.** Storage `Put` is never invoked during initialization; in steady
state it is invoked exactly when the refresh succeeded and storage is
configured, and then with precisely the newly adopted value. -/
theorem c10_put_only_after_successful_refresh {T E : Type} (initialRefreshAt now : GoTime)
    (storageResult : Option (Except E (Refreshable T))) (strategy : Refreshable T → GoTime)
    (refreshResult : Except E (Refreshable T)) (st : RefresherState T)
    (retryDelay : GoDuration) (storageConfigured : Bool) (putError : Option E)
    (e : E) (v : Refreshable T) :
    (initPhase initialRefreshAt storageResult strategy now refreshResult).putCalls = [] ∧
    (steadyStep st strategy retryDelay now (Except.error e) storageConfigured putError).putCalls = [] ∧
    (steadyStep st strategy retryDelay now (Except.ok v) storageConfigured putError).putCalls =
      (if storageConfigured then [v] else []) ∧
    (steadyStep st strategy retryDelay now (Except.ok v) storageConfigured putError).state.current =
      some v := by
  refine ⟨?_, rfl, ?_, rfl⟩
  · rcases storageResult with _ | sr
    · rcases refreshResult with e2 | v2 <;> simp [initPhase, refresh]
    · rcases sr with e1 | v1 <;> rcases refreshResult with e2 | v2 <;>
        simp [initPhase, refresh] <;> split_ifs <;> simp
  · cases storageConfigured <;> rcases putError with _ | e3 <;> simp [steadyStep, refresh, store]

/-- **C2 counterexample.** The claim fails on the code in two ways.  With
`issuedAt = 0`, `expiresAt = 100 s` and `now = 0` (before the two-thirds
point), the default strategy returns `issuedAt + 66 s` — the float seconds
value `66.666…` is truncated to whole seconds by the `time.Duration`
conversion — which is not `issuedAt + 2/3·(expiresAt−issuedAt)`.  And with
`now = 200 s` (the value already expired), it returns `now = 200 s`, which is
not `≤ expiresAt`. -/
theorem c2_counterexample :
    ((0 : GoTime) < 100000000000) ∧
    defaultRefreshStrategyFunc 0 (⟨(), 0, 100000000000⟩ : Refreshable Unit) = 66000000000 ∧
    ((66000000000 : ℚ) ≠ (0 : ℚ) + 2 / 3 * (100000000000 - 0)) ∧
    defaultRefreshStrategyFunc 200000000000 (⟨(), 0, 100000000000⟩ : Refreshable Unit) =
      200000000000 ∧
    ¬ ((200000000000 : GoTime) ≤ 100000000000) := by
  refine ⟨by norm_num, ?_, by norm_num, ?_, by norm_num⟩
  · rw [defaultRefreshStrategyFunc_eq]
    norm_num [durSeconds, truncQ, goSecond]
  · rw [defaultRefreshStrategyFunc_eq]
    norm_num

/-- **C2 (amended).** For every `Refreshable` with `issuedAt < expiresAt`:
whenever `now ≤ expiresAt` the default strategy returns `t` with
`issuedAt ≤ t ≤ expiresAt`; when no more than two thirds of the lifetime has
elapsed it returns `issuedAt` plus the two-thirds point in seconds truncated
to a whole number of seconds; when the value is expired or more than two
thirds of the lifetime has elapsed it returns `now`. -/
theorem c2_amended {T : Type} (r : Refreshable T) (now : GoTime)
    (h : r.issuedAt < r.expiresAt) :
    (now ≤ r.expiresAt →
      r.issuedAt ≤ defaultRefreshStrategyFunc now r ∧
      defaultRefreshStrategyFunc now r ≤ r.expiresAt) ∧
    (durSeconds (now - r.issuedAt) ≤ durSeconds (r.expiresAt - r.issuedAt) * 2 / 3 →
      defaultRefreshStrategyFunc now r =
        r.issuedAt + truncQ (durSeconds (r.expiresAt - r.issuedAt) * 2 / 3) * goSecond) ∧
    ((r.expiresAt < now ∨
        durSeconds (r.expiresAt - r.issuedAt) * 2 / 3 < durSeconds (now - r.issuedAt)) →
      defaultRefreshStrategyFunc now r = now) := by
  have hb : (0 : ℚ) < ((r.expiresAt - r.issuedAt : ℤ) : ℚ) := by
    exact_mod_cast sub_pos.2 h
  rw [defaultRefreshStrategyFunc_eq]
  by_cases hA : r.expiresAt < now
  · rw [if_pos hA]
    have haq : ((r.expiresAt - r.issuedAt : ℤ) : ℚ) < ((now - r.issuedAt : ℤ) : ℚ) := by
      exact_mod_cast sub_lt_sub_right hA r.issuedAt
    refine ⟨fun hc => absurd hA (not_lt.2 hc), fun hc => ?_, fun _ => rfl⟩
    exfalso
    unfold durSeconds at hc
    linarith
  · rw [if_neg hA]
    by_cases hB : durSeconds (r.expiresAt - r.issuedAt) * 2 / 3 < durSeconds (now - r.issuedAt)
    · rw [if_pos hB]
      refine ⟨fun hc => ⟨?_, hc⟩, fun hc => absurd hB (not_lt.2 hc), fun _ => rfl⟩
      have hsf : (0 : ℚ) < ((now - r.issuedAt : ℤ) : ℚ) := by
        unfold durSeconds at hB
        linarith
      have : (0 : ℤ) < now - r.issuedAt := by exact_mod_cast hsf
      linarith
    · rw [if_neg hB]
      have hq0 : (0 : ℚ) ≤ durSeconds (r.expiresAt - r.issuedAt) * 2 / 3 := by
        unfold durSeconds
        linarith
      rw [truncQ_eq_floor _ hq0]
      refine ⟨fun _ => ⟨?_, ?_⟩, fun _ => rfl, fun hc => ?_⟩
      · have h0 : 0 ≤ ⌊durSeconds (r.expiresAt - r.issuedAt) * 2 / 3⌋ :=
          Int.floor_nonneg.2 hq0
        have h1 : (0 : ℤ) ≤ ⌊durSeconds (r.expiresAt - r.issuedAt) * 2 / 3⌋ * goSecond :=
          mul_nonneg h0 (by norm_num [goSecond])
        linarith
      · have h1 : (⌊durSeconds (r.expiresAt - r.issuedAt) * 2 / 3⌋ : ℚ) ≤
            durSeconds (r.expiresAt - r.issuedAt) * 2 / 3 :=
          Int.floor_le _
        have h2 : durSeconds (r.expiresAt - r.issuedAt) * 2 / 3 ≤
            ((r.expiresAt - r.issuedAt : ℤ) : ℚ) / 1000000000 := by
          unfold durSeconds
          linarith
        have h3 : ((⌊durSeconds (r.expiresAt - r.issuedAt) * 2 / 3⌋ : ℚ)) * 1000000000 ≤
            ((r.expiresAt - r.issuedAt : ℤ) : ℚ) := by linarith
        have h4 : ⌊durSeconds (r.expiresAt - r.issuedAt) * 2 / 3⌋ * 1000000000 ≤
            r.expiresAt - r.issuedAt := by exact_mod_cast h3
        have h5 : goSecond = (1000000000 : ℤ) := rfl
        rw [h5]
        linarith
      · rcases hc with hc | hc
        · exact absurd hc hA
        · exact absurd hc hB

/-- Witness for C2 (amended) at the spec's own 90-second-lifetime scenario:
the two-thirds point of a 90 s lifetime issued at 0 is exactly 60 s. -/
theorem c2_amended_witness :
    defaultRefreshStrategyFunc 0 (⟨(), 0, 90000000000⟩ : Refreshable Unit) = 60000000000 := by
  have h := (c2_amended (⟨(), 0, 90000000000⟩ : Refreshable Unit) 0 (by norm_num)).2.1
      (by norm_num [durSeconds])
  rw [h]
  norm_num [durSeconds, truncQ, goSecond]

lemma scheduledFirstFuture_maxTime_or_future (ts : List GoTime) (now : GoTime) :
    scheduledFirstFuture ts now = maxTime ∨ now < scheduledFirstFuture ts now := by
  induction ts with
  | nil => exact Or.inl rfl
  | cons t rest ih =>
      by_cases hlt : now < t
      · exact Or.inr (by simp [scheduledFirstFuture, hlt])
      · simpa [scheduledFirstFuture, hlt] using ih

/-- **C4 counterexample.** For a `Refreshable` expired at `now = 20`
(`expiresAt = 10`), the static-time strategy configured with instant 30
returns 30, the scheduled strategy with an exhausted list returns `maxTime`,
the static lifetime-spent strategy with duration 100 returns
`issuedAt + 100 = 100`, and the static lifetime-left strategy with a negative
duration −100 returns `expiresAt + 100 = 110` — all strictly greater than
`now`, contradicting the claim that every variant returns a timestamp ≤ now. -/
theorem c4_counterexample :
    ((10 : GoTime) < 20) ∧
    (staticTimeGetRefreshAt 30 (⟨(), 0, 10⟩ : Refreshable Unit) = 30 ∧ ¬ ((30 : GoTime) ≤ 20)) ∧
    (scheduledGetRefreshAt [] 20 (⟨(), 0, 10⟩ : Refreshable Unit) = maxTime ∧
      ¬ (maxTime ≤ (20 : GoTime))) ∧
    (staticLifetimeSpentGetRefreshAt 100 20 (⟨(), 0, 10⟩ : Refreshable Unit) = 100 ∧
      ¬ ((100 : GoTime) ≤ 20)) ∧
    (staticLifetimeLeftGetRefreshAt (-100) 20 (⟨(), 0, 10⟩ : Refreshable Unit) = 110 ∧
      ¬ ((110 : GoTime) ≤ 20)) := by
  refine ⟨by norm_num, ⟨rfl, by norm_num⟩, ⟨rfl, ?_⟩, ⟨?_, by norm_num⟩, ⟨?_, by norm_num⟩⟩
  · norm_num [maxTime]
  · norm_num [staticLifetimeSpentGetRefreshAt]
  · norm_num [staticLifetimeLeftGetRefreshAt]

/-- **C4 (amended).** For every `Refreshable` with `expiresAt < now`, the
default and random-within-window strategies return a timestamp ≤ now, and so
does the static lifetime-left strategy provided its configured duration is
nonnegative.  The static lifetime-spent strategy instead returns
`max now (issuedAt + duration)`, the static-time strategy always returns its
configured instant, and the scheduled strategy returns either `maxTime` or a
configured instant strictly after `now` — none of which is bounded by `now`. -/
theorem c4_amended {T : Type} (r : Refreshable T) (now : GoTime) (h : r.expiresAt < now)
    (s : RandomWindowStrategy) (rnd : ℚ) (dLeft dSpent : GoDuration) (hd : 0 ≤ dLeft)
    (t0 : GoTime) (ts : List GoTime) :
    defaultRefreshStrategyFunc now r ≤ now ∧
    randomWindowGetRefreshAt s rnd now r ≤ now ∧
    staticLifetimeLeftGetRefreshAt dLeft now r ≤ now ∧
    staticLifetimeSpentGetRefreshAt dSpent now r = max now (r.issuedAt + dSpent) ∧
    staticTimeGetRefreshAt t0 r = t0 ∧
    (scheduledGetRefreshAt ts now r = maxTime ∨ now < scheduledGetRefreshAt ts now r) := by
  refine ⟨?_, ?_, ?_, ?_, rfl, scheduledFirstFuture_maxTime_or_future ts now⟩
  · rw [defaultRefreshStrategyFunc_eq, if_pos h]
  · rw [randomWindowGetRefreshAt_eq, if_pos h]
  · show (if now < r.expiresAt - dLeft then r.expiresAt - dLeft else now) ≤ now
    split_ifs with h1 <;> linarith
  · show (if now < r.issuedAt + dSpent then r.issuedAt + dSpent else now) =
      max now (r.issuedAt + dSpent)
    split_ifs with h1
    · exact (max_eq_right h1.le).symm
    · exact (max_eq_left (not_lt.1 h1)).symm

/-- Witness for C4 (amended) at a concrete input: an expired value
(`expiresAt = 10 < now = 20`). -/
theorem c4_amended_witness :
    defaultRefreshStrategyFunc 20 (⟨(), 0, 10⟩ : Refreshable Unit) ≤ 20 ∧
    staticLifetimeSpentGetRefreshAt 100 20 (⟨(), 0, 10⟩ : Refreshable Unit) = max 20 (0 + 100) :=
  ⟨(c4_amended (⟨(), 0, 10⟩ : Refreshable Unit) 20 (by norm_num) ⟨1/2, 1/2⟩ 0 1 100
      (by norm_num) 30 []).1,
   (c4_amended (⟨(), 0, 10⟩ : Refreshable Unit) 20 (by norm_num) ⟨1/2, 1/2⟩ 0 1 100
      (by norm_num) 30 []).2.2.2.1⟩

lemma scheduledFirstFuture_all_past (ts : List GoTime) (now : GoTime)
    (h : ∀ t ∈ ts, t ≤ now) : scheduledFirstFuture ts now = maxTime := by
  induction ts with
  | nil => rfl
  | cons a rest ih =>
      have ha := h a (List.mem_cons_self a rest)
      rw [show scheduledFirstFuture (a :: rest) now =
          if now < a then a else scheduledFirstFuture rest now from rfl,
        if_neg (not_lt.2 ha)]
      exact ih fun u hu => h u (List.mem_cons_of_mem a hu)

lemma scheduledFirstFuture_min (ts : List GoTime) (now : GoTime)
    (hs : List.Sorted (· ≤ ·) ts) (t : GoTime) (ht : t ∈ ts) (hf : now < t) :
    scheduledFirstFuture ts now ∈ ts ∧ now < scheduledFirstFuture ts now ∧
      scheduledFirstFuture ts now ≤ t := by
  induction ts with
  | nil => cases ht
  | cons a rest ih =>
      rw [List.sorted_cons] at hs
      obtain ⟨ha, hrest⟩ := hs
      by_cases hlt : now < a
      · rw [show scheduledFirstFuture (a :: rest) now =
            if now < a then a else scheduledFirstFuture rest now from rfl, if_pos hlt]
        refine ⟨List.mem_cons_self a rest, hlt, ?_⟩
        rcases List.mem_cons.1 ht with h1 | h1
        · exact le_of_eq h1.symm
        · exact ha t h1
      · rw [show scheduledFirstFuture (a :: rest) now =
            if now < a then a else scheduledFirstFuture rest now from rfl, if_neg hlt]
        have ht' : t ∈ rest := by
          rcases List.mem_cons.1 ht with h1 | h1
          · exact absurd (h1 ▸ hf) hlt
          · exact h1
        obtain ⟨m1, m2, m3⟩ := ih hrest ht'
        exact ⟨List.mem_cons_of_mem a m1, m2, m3⟩

/-- **C7.** For a sorted (ascending) configured list, the scheduled strategy
returns the earliest configured timestamp strictly in the future: the result
is in the list, strictly after `now`, and no later than any configured
timestamp that is strictly in the future.  If every configured timestamp is
at or before `now` (in particular if the list is empty), it returns the
sentinel `maxTime` rather than an error. -/
theorem c7_scheduled_strategy {T : Type} (ts : List GoTime) (now : GoTime)
    (r : Refreshable T) (hs : List.Sorted (· ≤ ·) ts) :
    ((∀ t ∈ ts, t ≤ now) → scheduledGetRefreshAt ts now r = maxTime) ∧
    (∀ t ∈ ts, now < t →
      scheduledGetRefreshAt ts now r ∈ ts ∧
      now < scheduledGetRefreshAt ts now r ∧
      scheduledGetRefreshAt ts now r ≤ t) :=
  ⟨fun h => scheduledFirstFuture_all_past ts now h,
   fun t ht hf => scheduledFirstFuture_min ts now hs t ht hf⟩

/-- Witness for C7 at a concrete input: list `[1, 5]`, `now = 3` — the
result (5) is in the list, after `now`, and no later than the future
element 5. -/
theorem c7_scheduled_strategy_witness :
    scheduledGetRefreshAt [(1 : GoTime), 5] 3 (⟨(), 0, 0⟩ : Refreshable Unit) ∈
      [(1 : GoTime), 5] ∧
    (3 : GoTime) < scheduledGetRefreshAt [(1 : GoTime), 5] 3 (⟨(), 0, 0⟩ : Refreshable Unit) ∧
    scheduledGetRefreshAt [(1 : GoTime), 5] 3 (⟨(), 0, 0⟩ : Refreshable Unit) ≤ 5 :=
  (c7_scheduled_strategy [(1 : GoTime), 5] 3 (⟨(), 0, 0⟩ : Refreshable Unit)
      (by simp [List.sorted_cons])).2 5 (by simp) (by norm_num)

lemma clamp_bounds (v lo hi : ℚ) (h : lo ≤ hi) : lo ≤ clamp v lo hi ∧ clamp v lo hi ≤ hi := by
  unfold clamp
  split_ifs <;> constructor <;> linarith

lemma NewRandomWithinLifetimeWindow_props (mn mx : ℚ) :
    (NewRandomWithinLifetimeWindow mn mx).max = clamp mx (1/100) (99/100) ∧
    ((NewRandomWithinLifetimeWindow mn mx).min = clamp mn (1/100) (99/100) ∨
      (NewRandomWithinLifetimeWindow mn mx).min = (NewRandomWithinLifetimeWindow mn mx).max) ∧
    1/100 ≤ (NewRandomWithinLifetimeWindow mn mx).min ∧
    (NewRandomWithinLifetimeWindow mn mx).min ≤ (NewRandomWithinLifetimeWindow mn mx).max ∧
    (NewRandomWithinLifetimeWindow mn mx).max ≤ 99/100 := by
  have hmn := clamp_bounds mn (1/100) (99/100) (by norm_num)
  have hmx := clamp_bounds mx (1/100) (99/100) (by norm_num)
  rw [show NewRandomWithinLifetimeWindow mn mx =
      if clamp mx (1/100) (99/100) < clamp mn (1/100) (99/100)
      then ⟨clamp mx (1/100) (99/100), clamp mx (1/100) (99/100)⟩
      else ⟨clamp mn (1/100) (99/100), clamp mx (1/100) (99/100)⟩ from rfl]
  split_ifs with h
  · exact ⟨rfl, Or.inr rfl, hmx.1, le_refl _, hmx.2⟩
  · exact ⟨rfl, Or.inl rfl, hmn.1, not_lt.1 h, hmx.2⟩

/-- **C8 counterexample.** With `min = max = 0.505`, random factor 0, a
100-second lifetime issued at 0 and `now = 0`, the strategy returns
`issuedAt + 50 s` (the desired elapsed lifetime `50.5 s` is truncated to
whole seconds), which lies strictly BEFORE the `[min, max]` window point
`issuedAt + 50.5 s` — so the result is not within the `[min, max]` fraction
of the lifetime after `issuedAt`. -/
theorem c8_counterexample :
    randomWindowGetRefreshAt (NewRandomWithinLifetimeWindow (505/1000) (505/1000)) 0 0
      (⟨(), 0, 100000000000⟩ : Refreshable Unit) = 50000000000 ∧
    ¬ ((0 : ℚ) + (NewRandomWithinLifetimeWindow (505/1000) (505/1000)).min * 100000000000 ≤
        ((50000000000 : ℤ) : ℚ)) := by
  constructor
  · rw [randomWindowGetRefreshAt_eq]
    norm_num [NewRandomWithinLifetimeWindow, clamp, durSeconds, truncQ, goSecond]
  · norm_num [NewRandomWithinLifetimeWindow, clamp]

/-- **C8 (amended).** The constructor clamps each bound into [0.01, 0.99] and
then forces `min ≤ max` by overriding `min` to `max`.  For a non-expired
`Refreshable` with `issuedAt ≤ expiresAt` whose elapsed lifetime has not yet
reached the randomly chosen fraction, `GetRefreshAt` returns
`issuedAt + trunc(desired seconds)` — a time within the `[min, max]` fraction
of the lifetime after `issuedAt`, except that truncation to whole seconds may
place it up to (strictly less than) one second before the window's lower
edge. -/
theorem c8_amended (mn mx : ℚ) {T : Type} (r : Refreshable T) (now : GoTime) (rnd : ℚ)
    (s : RandomWindowStrategy) (hs : s = NewRandomWithinLifetimeWindow mn mx)
    (hexp : ¬ r.expiresAt < now) (hio : r.issuedAt ≤ r.expiresAt)
    (hr0 : 0 ≤ rnd) (hr1 : rnd < 1)
    (hfrac : durSeconds (now - r.issuedAt) ≤
      durSeconds (r.expiresAt - r.issuedAt) * (s.min + rnd * (s.max - s.min))) :
    (s.max = clamp mx (1/100) (99/100) ∧
      (s.min = clamp mn (1/100) (99/100) ∨ s.min = s.max) ∧
      1/100 ≤ s.min ∧ s.min ≤ s.max ∧ s.max ≤ 99/100) ∧
    ((r.issuedAt : ℚ) + s.min * ((r.expiresAt - r.issuedAt : ℤ) : ℚ) - 1000000000 <
      ((randomWindowGetRefreshAt s rnd now r : ℤ) : ℚ)) ∧
    (((randomWindowGetRefreshAt s rnd now r : ℤ) : ℚ) ≤
      (r.issuedAt : ℚ) + s.max * ((r.expiresAt - r.issuedAt : ℤ) : ℚ)) := by
  have hprops := NewRandomWithinLifetimeWindow_props mn mx
  rw [← hs] at hprops
  obtain ⟨hpmax, hpmin, hlo, hminmax, hhi⟩ := hprops
  refine ⟨⟨hpmax, hpmin, hlo, hminmax, hhi⟩, ?_⟩
  -- abbreviations
  have ha0 : (0 : ℚ) ≤ ((r.expiresAt - r.issuedAt : ℤ) : ℚ) := by
    exact_mod_cast sub_nonneg.2 hio
  have hfac_lo : s.min ≤ s.min + rnd * (s.max - s.min) := by
    nlinarith
  have hfac_hi : s.min + rnd * (s.max - s.min) ≤ s.max := by
    nlinarith
  have hfac0 : (0 : ℚ) ≤ s.min + rnd * (s.max - s.min) := by linarith
  have hd0 : (0 : ℚ) ≤ durSeconds (r.expiresAt - r.issuedAt) * (s.min + rnd * (s.max - s.min)) := by
    unfold durSeconds
    have : (0 : ℚ) ≤ ((r.expiresAt - r.issuedAt : ℤ) : ℚ) / 1000000000 := by linarith
    nlinarith
  rw [randomWindowGetRefreshAt_eq, if_neg hexp, if_neg (not_lt.2 hfrac),
    truncQ_eq_floor _ hd0]
  have hfl_le : (⌊durSeconds (r.expiresAt - r.issuedAt) * (s.min + rnd * (s.max - s.min))⌋ : ℚ) ≤
      durSeconds (r.expiresAt - r.issuedAt) * (s.min + rnd * (s.max - s.min)) :=
    Int.floor_le _
  have hfl_gt : durSeconds (r.expiresAt - r.issuedAt) * (s.min + rnd * (s.max - s.min)) - 1 <
      (⌊durSeconds (r.expiresAt - r.issuedAt) * (s.min + rnd * (s.max - s.min))⌋ : ℚ) :=
    Int.sub_one_lt_floor _
  have hcast : ((r.issuedAt +
      ⌊durSeconds (r.expiresAt - r.issuedAt) * (s.min + rnd * (s.max - s.min))⌋ * goSecond : ℤ) : ℚ) =
      (r.issuedAt : ℚ) +
        (⌊durSeconds (r.expiresAt - r.issuedAt) * (s.min + rnd * (s.max - s.min))⌋ : ℚ) *
          1000000000 := by
    push_cast [goSecond]
    ring
  rw [hcast]
  have hds : durSeconds (r.expiresAt - r.issuedAt) * (s.min + rnd * (s.max - s.min)) * 1000000000 =
      ((r.expiresAt - r.issuedAt : ℤ) : ℚ) * (s.min + rnd * (s.max - s.min)) := by
    unfold durSeconds
    ring
  have hprod_hi : ((r.expiresAt - r.issuedAt : ℤ) : ℚ) * (s.min + rnd * (s.max - s.min)) ≤
      s.max * ((r.expiresAt - r.issuedAt : ℤ) : ℚ) := by
    nlinarith
  have hprod_lo : s.min * ((r.expiresAt - r.issuedAt : ℤ) : ℚ) ≤
      ((r.expiresAt - r.issuedAt : ℤ) : ℚ) * (s.min + rnd * (s.max - s.min)) := by
    nlinarith
  constructor
  · nlinarith
  · nlinarith

/-- Witness for C8 (amended) at a concrete input: `min = max = 0.5`, random
factor 0, a 100-second lifetime issued at 0, `now = 0`. -/
theorem c8_amended_witness :
    (1/100 : ℚ) ≤ (NewRandomWithinLifetimeWindow (1/2) (1/2)).min ∧
    ((0 : ℤ) : ℚ) + (NewRandomWithinLifetimeWindow (1/2) (1/2)).min *
        (((100000000000 : ℤ) - 0 : ℤ) : ℚ) - 1000000000 <
      ((randomWindowGetRefreshAt (NewRandomWithinLifetimeWindow (1/2) (1/2)) 0 0
        (⟨(), 0, 100000000000⟩ : Refreshable Unit) : ℤ) : ℚ) := by
  have h := c8_amended (1/2) (1/2) (⟨(), 0, 100000000000⟩ : Refreshable Unit) 0 0
      (NewRandomWithinLifetimeWindow (1/2) (1/2)) rfl (by norm_num) (by norm_num)
      (by norm_num) (by norm_num)
      (by norm_num [NewRandomWithinLifetimeWindow, clamp, durSeconds])
  exact ⟨h.1.2.2.1, h.2.1⟩

/-- Witness for C9 at a concrete input: with storage configured, a
successful read, a successful refresh and a successful write, the two unused
success callbacks still do not fire. -/
theorem c9_storage_success_callbacks_never_fire_witness :
    CallbackEvent.storageReadSuccess (⟨(), 0, 10⟩ : Refreshable Unit) ∉
      (initPhase (E := Unit) 0 (some (Except.ok ⟨(), 0, 10⟩)) (fun _ => 1) 0
        (Except.ok ⟨(), 0, 10⟩)).events ∧
    CallbackEvent.storageWriteSuccess (⟨(), 0, 10⟩ : Refreshable Unit) ∉
      (steadyStep (E := Unit) ⟨none, 0⟩ (fun _ => 1) defaultRetryDelay 0
        (Except.ok ⟨(), 0, 10⟩) true none).events :=
  ⟨(c9_storage_success_callbacks_never_fire 0 0 (some (Except.ok ⟨(), 0, 10⟩)) (fun _ => 1)
      (Except.ok ⟨(), 0, 10⟩) ⟨none, 0⟩ defaultRetryDelay true none ⟨(), 0, 10⟩).1,
   (c9_storage_success_callbacks_never_fire 0 0 (some (Except.ok ⟨(), 0, 10⟩)) (fun _ => 1)
      (Except.ok ⟨(), 0, 10⟩) ⟨none, 0⟩ defaultRetryDelay true none ⟨(), 0, 10⟩).2.2.2⟩
